import Mathlib

/-!
Verification of the OpenCLWrapper repository (OpenCL.hpp): a shallow
embedding of the wrapper class `OpenCLWrapper::OpenCL` and of the driver
program `main`, together with theorems about the device-search order, the
grid-size heuristic, the lazy one-time initialization of the device list,
context and command queue, the single-event tracking, the `SetParameter`
validation, and the driver's XML-configuration handling.

External OpenCL and libxml2 calls are modelled by an explicit environment
(`Env`, `DriverInput`) providing their results; machine integers (`cl_int`,
`long`, `cl_device_type`) are modelled as `Int` / `Nat` (no operation in
the translated code can overflow their 32/64-bit ranges), with C++
truncated division and remainder rendered as `Int.tdiv` / `Int.tmod`.
-/

set_option maxRecDepth 8192
set_option linter.unusedVariables false

namespace OpenCLWrapper

/-! ## OpenCL API constants (from CL/cl.h) -/

def CL_SUCCESS : Int := 0
def CL_DEVICE_NOT_FOUND : Int := -1
def CL_OUT_OF_HOST_MEMORY : Int := -6
def CL_INVALID_OPERATION : Int := -59

def CL_DEVICE_TYPE_DEFAULT : Nat := 1
def CL_DEVICE_TYPE_CPU : Nat := 2
def CL_DEVICE_TYPE_GPU : Nat := 4
def CL_DEVICE_TYPE_ACCELERATOR : Nat := 8
def CL_DEVICE_TYPE_ALL : Nat := 0xFFFFFFFF

/-- The `OpenCLParameters` enumeration (OpenCL.hpp lines 26-30). -/
inductive OpenCLParameters where
  | TargetDevice
  | BuildOptions
  | MaxParameters
deriving DecidableEq

/-! ## cl::NDRange

A `cl::NDRange` is null (default constructed), one-dimensional, or
two-dimensional; the wrapper never builds a three-dimensional range. -/

inductive NDRange where
  | null : NDRange
  | one : Int → NDRange
  | two : Int → Int → NDRange
deriving DecidableEq

/-! ## GetGridSize

Embedding of `OpenCL::GetGridSize` (OpenCL.hpp lines 302-320).  The C++
loop `for (int i = MaxThreads; i > 0; i--) if (!(Size % i)) { LocalSize =
cl::NDRange(i, Size / i); break; }` is the descending search `findLocal`;
`%` and `/` on `long` are C++ truncated remainder and division, i.e.
`Int.tmod` and `Int.tdiv`. -/

def findLocal (Size : Int) : Nat → Option (Int × Int)
  | 0 => none
  | n + 1 =>
    if Size.tmod ((n : Int) + 1) = 0 then
      some ((n : Int) + 1, Size.tdiv ((n : Int) + 1))
    else
      findLocal Size n

def GetGridSize (LocalSize0 GlobalSize0 : NDRange) (Size : Int) :
    NDRange × NDRange :=
  let MaxThreads : Int := 512
  let LocalSize :=
    if Size ≤ MaxThreads then
      NDRange.one (min MaxThreads Size)
    else
      match findLocal Size 512 with
      | some (i, q) => NDRange.two i q
      | none => LocalSize0
  (LocalSize, NDRange.one Size)

/-! ## Devices, platforms and the external environment

A `cl::Device` is abstracted by the two query results the wrapper reads
(`CL_DEVICE_AVAILABLE`, `CL_DEVICE_COMPILER_AVAILABLE`); a `cl::Platform`
by what its `getDevices` returns for each of the three device classes the
wrapper browses.  `Env` supplies the outcome of every other external call
(allocations, constructors, enqueues, event queries), so the wrapper's own
control flow is the only logic modelled. -/

structure Device where
  available : Bool
  compilerAvailable : Bool
deriving DecidableEq

structure Platform where
  accelerators : List Device
  gpus : List Device
  cpus : List Device
deriving DecidableEq

structure Env where
  platforms : List Platform
  devicesAllocOk : Bool
  contextAllocOk : Bool
  contextError : Int
  contextHandle : Nat
  queueAllocOk : Bool
  queueError : Int
  queueHandle : Nat
  enqueueKernelError : Int
  kernelEvent : Nat
  readError : Int
  readEvent : Nat
  writeError : Int
  writeEvent : Nat
  bufferError : Int
  programError : Int
  buildError : Int
  waitResult : Nat → Int
  profStartError : Nat → Int
  profEndError : Nat → Int
  profStartVal : Nat → Int
  profEndVal : Nat → Int

/-- The private members of class `OpenCL` (OpenCL.hpp lines 36-51).
Pointer members (`mContext`, `mQueue`, `mDevices`) are `Option`s, `none`
standing for the null pointer; `mEvent` is the handle of the tracked
`cl::Event` (0 for the default-constructed event). -/
structure OpenCLState where
  mEvent : Nat
  mDevice : Nat
  mContext : Option Nat
  mBuildOptions : String
  mQueue : Option Nat
  mTargetDevice : Nat
  mDevices : Option (List Device)
deriving DecidableEq

/-- The constructor `OpenCL::OpenCL` (OpenCL.hpp lines 255-262). -/
def OpenCLNew : OpenCLState :=
  { mEvent := 0
    mDevice := 0
    mContext := none
    mBuildOptions := ""
    mQueue := none
    mTargetDevice := CL_DEVICE_TYPE_ALL
    mDevices := none }

/-! ## InitializeDevices (OpenCL.hpp lines 97-141) -/

/-- Inner loop of the `BROWSE_DEVICES` macro: index of the first device of
the list that is available and compiler-capable. -/
def findCapable : List Device → Option Nat
  | [] => none
  | d :: rest =>
    if d.available && d.compilerAvailable then some 0
    else (findCapable rest).map (fun j => j + 1)

/-- Outer loop of the `BROWSE_DEVICES` macro: scan the platforms in order,
fetching one class of devices per platform, and stop at the first platform
holding a capable device, returning that device's index together with the
fetched list (the contents `*mDevices` holds at that point). -/
def browseClass (sel : Platform → List Device) :
    List Platform → Option (Nat × List Device)
  | [] => none
  | p :: rest =>
    match findCapable (sel p) with
    | some j => some (j, sel p)
    | none => browseClass sel rest

/-- Guard of each `BROWSE_DEVICES` use: `mTargetDevice == CL_DEVICE_TYPE_ALL
|| mTargetDevice & (CL_DEVICE_TYPE_DEFAULT | classBit)`. -/
def permits (target classBit : Nat) : Bool :=
  target == CL_DEVICE_TYPE_ALL ||
    target &&& (CL_DEVICE_TYPE_DEFAULT ||| classBit) != 0

/-- The three guarded `BROWSE_DEVICES` uses of lines 118-134, in their
fixed order: accelerator, then GPU, then CPU. -/
def searchDevice (env : Env) (target : Nat) : Option (Nat × List Device) :=
  match
    (if permits target CL_DEVICE_TYPE_ACCELERATOR then
       browseClass (fun p => p.accelerators) env.platforms
     else none) with
  | some r => some r
  | none =>
    match
      (if permits target CL_DEVICE_TYPE_GPU then
         browseClass (fun p => p.gpus) env.platforms
       else none) with
    | some r => some r
    | none =>
      if permits target CL_DEVICE_TYPE_CPU then
        browseClass (fun p => p.cpus) env.platforms
      else none

def InitializeDevices (env : Env) (s : OpenCLState) : Int × OpenCLState :=
  if env.devicesAllocOk = false then
    (CL_OUT_OF_HOST_MEMORY, { s with mDevices := none })
  else
    match searchDevice env s.mTargetDevice with
    | some (j, devs) =>
      (CL_SUCCESS, { s with mDevice := j, mDevices := some devs })
    | none => (CL_DEVICE_NOT_FOUND, { s with mDevices := none })

/-! ### Specification-side restatement of the device search

`classSearchOrder` lists, in search order, every device list the loops of
`InitializeDevices` can fetch: all platforms' accelerator lists, then all
platforms' GPU lists, then all platforms' CPU lists, each class present
only when the target device type permits browsing it.  `firstHit` picks
the first list holding an available and compiler-capable device, together
with the index of the first such device in it. -/

def classSearchOrder (target : Nat) (ps : List Platform) :
    List (List Device) :=
  (if permits target CL_DEVICE_TYPE_ACCELERATOR then
     ps.map (fun p => p.accelerators) else []) ++
  (if permits target CL_DEVICE_TYPE_GPU then
     ps.map (fun p => p.gpus) else []) ++
  (if permits target CL_DEVICE_TYPE_CPU then
     ps.map (fun p => p.cpus) else [])

def firstHit : List (List Device) → Option (Nat × List Device)
  | [] => none
  | devs :: rest =>
    match findCapable devs with
    | some j => some (j, devs)
    | none => firstHit rest

/-! ## The INIT macro and the other initialization steps -/

/-- The `INIT(type)` macro (OpenCL.hpp lines 81-87) applied to a member:
call the initializer only when the member is null, and propagate a failing
error code (with the state the initializer left) to the caller. -/
def runInit (member : OpenCLState → Option α)
    (initFn : OpenCLState → Int × OpenCLState) (s : OpenCLState) :
    Except (Int × OpenCLState) OpenCLState :=
  match member s with
  | some _ => Except.ok s
  | none =>
    let r := initFn s
    if r.1 = CL_SUCCESS then Except.ok r.2 else Except.error r

def runInitDevices (env : Env) (s : OpenCLState) :
    Except (Int × OpenCLState) OpenCLState :=
  runInit (fun s => s.mDevices) (InitializeDevices env) s

/-- `OpenCL::InitializeContext` (OpenCL.hpp lines 149-167). -/
def InitializeContext (env : Env) (s : OpenCLState) : Int × OpenCLState :=
  match runInitDevices env s with
  | Except.error r => r
  | Except.ok s1 =>
    if env.contextAllocOk = false then
      (CL_OUT_OF_HOST_MEMORY, { s1 with mContext := none })
    else if env.contextError ≠ CL_SUCCESS then
      (env.contextError, { s1 with mContext := none })
    else
      (CL_SUCCESS, { s1 with mContext := some env.contextHandle })

def runInitContext (env : Env) (s : OpenCLState) :
    Except (Int × OpenCLState) OpenCLState :=
  runInit (fun s => s.mContext) (InitializeContext env) s

/-- `OpenCL::InitializeQueue` (OpenCL.hpp lines 175-196). -/
def InitializeQueue (env : Env) (s : OpenCLState) : Int × OpenCLState :=
  match runInitContext env s with
  | Except.error r => r
  | Except.ok s1 =>
    if env.queueAllocOk = false then
      (CL_OUT_OF_HOST_MEMORY, { s1 with mQueue := none })
    else if env.queueError ≠ CL_SUCCESS then
      (env.queueError, { s1 with mQueue := none })
    else
      (CL_SUCCESS, { s1 with mQueue := some env.queueHandle })

def runInitQueue (env : Env) (s : OpenCLState) :
    Except (Int × OpenCLState) OpenCLState :=
  runInit (fun s => s.mQueue) (InitializeQueue env) s

/-! ## Public operations of the wrapper -/

/-- `OpenCL::ExecuteKernelFromKernelEx` (OpenCL.hpp lines 208-223): ensure
the queue exists, compute the grid, enqueue the kernel with `&mEvent` as
event out-parameter (the enqueue stores the new event there on success). -/
def ExecuteKernelFromKernelEx (env : Env) (s : OpenCLState)
    (DataSize : Int) : Int × OpenCLState :=
  match runInitQueue env s with
  | Except.error r => r
  | Except.ok s1 =>
    let grid := GetGridSize NDRange.null NDRange.null DataSize
    if env.enqueueKernelError = CL_SUCCESS then
      (CL_SUCCESS, { s1 with mEvent := env.kernelEvent })
    else
      (env.enqueueKernelError, s1)

/-- `OpenCL::AllocateBuffer` (OpenCL.hpp lines 283-292). -/
def AllocateBuffer (env : Env) (s : OpenCLState) (Size : Nat) :
    Int × OpenCLState :=
  match runInitContext env s with
  | Except.error r => r
  | Except.ok s1 => (env.bufferError, s1)

/-- `OpenCL::GetUsedDevice` (OpenCL.hpp lines 331-339). -/
def GetUsedDevice (env : Env) (s : OpenCLState) :
    Int × OpenCLState × Option Device :=
  match runInitDevices env s with
  | Except.error r => (r.1, r.2, none)
  | Except.ok s1 =>
    (CL_SUCCESS, s1, (s1.mDevices.getD []).get? s1.mDevice)

/-- `OpenCL::GetProgramFromSource` (OpenCL.hpp lines 401-417). -/
def GetProgramFromSource (env : Env) (s : OpenCLState) (Source : String) :
    Int × OpenCLState :=
  match runInitContext env s with
  | Except.error r => r
  | Except.ok s1 =>
    if env.programError ≠ CL_SUCCESS then (env.programError, s1)
    else (env.buildError, s1)

/-- `OpenCL::GetLastElapsedTime` (OpenCL.hpp lines 533-550); profiling
counters are modelled as integers. -/
def GetLastElapsedTime (env : Env) (s : OpenCLState) : Int × Option Int :=
  let e1 := env.profStartError s.mEvent
  if e1 ≠ CL_SUCCESS then (e1, none)
  else
    let e2 := env.profEndError s.mEvent
    if e2 ≠ CL_SUCCESS then (e2, none)
    else
      (CL_SUCCESS, some (env.profEndVal s.mEvent - env.profStartVal s.mEvent))

/-- `OpenCL::ReadBuffer` (OpenCL.hpp lines 711-720). -/
def ReadBuffer (env : Env) (s : OpenCLState) (Size : Nat) :
    Int × OpenCLState :=
  match runInitQueue env s with
  | Except.error r => r
  | Except.ok s1 =>
    if env.readError = CL_SUCCESS then
      (CL_SUCCESS, { s1 with mEvent := env.readEvent })
    else
      (env.readError, s1)

/-- `OpenCL::SetParameter` for numeric values (OpenCL.hpp lines 730-751). -/
def SetParameterNum (s : OpenCLState) (Parameter : OpenCLParameters)
    (Value : Nat) : Int × OpenCLState :=
  match Parameter with
  | OpenCLParameters.TargetDevice =>
    if s.mDevices = none then
      if Value = CL_DEVICE_TYPE_ALL ∨
          Value ≤ (CL_DEVICE_TYPE_DEFAULT ||| CL_DEVICE_TYPE_CPU |||
                   CL_DEVICE_TYPE_GPU ||| CL_DEVICE_TYPE_ACCELERATOR) then
        (CL_SUCCESS, { s with mTargetDevice := Value })
      else
        (CL_INVALID_OPERATION, s)
    else
      (CL_INVALID_OPERATION, s)
  | _ => (CL_INVALID_OPERATION, s)

/-- `OpenCL::SetParameter` for string values (OpenCL.hpp lines 761-776). -/
def SetParameterStr (s : OpenCLState) (Parameter : OpenCLParameters)
    (Value : String) : Int × OpenCLState :=
  match Parameter with
  | OpenCLParameters.BuildOptions =>
    (CL_SUCCESS, { s with mBuildOptions := Value })
  | _ => (CL_INVALID_OPERATION, s)

/-- `OpenCL::WaitForLastEvent` (OpenCL.hpp lines 783-785). -/
def WaitForLastEvent (env : Env) (s : OpenCLState) : Int :=
  env.waitResult s.mEvent

/-- `OpenCL::WriteBuffer` (OpenCL.hpp lines 797-806). -/
def WriteBuffer (env : Env) (s : OpenCLState) (Size : Nat) :
    Int × OpenCLState :=
  match runInitQueue env s with
  | Except.error r => r
  | Except.ok s1 =>
    if env.writeError = CL_SUCCESS then
      (CL_SUCCESS, { s1 with mEvent := env.writeEvent })
    else
      (env.writeError, s1)

/-! ## Auxiliary predicates and concrete fixtures -/

/-- The lazily created members that are non-null in `s` are still the very
same in `t`. -/
def memPreserved (s t : OpenCLState) : Prop :=
  (∀ d, s.mDevices = some d → t.mDevices = some d) ∧
  (∀ c, s.mContext = some c → t.mContext = some c) ∧
  (∀ q, s.mQueue = some q → t.mQueue = some q)

def devGood : Device := { available := true, compilerAvailable := true }

def platformG : Platform :=
  { accelerators := [], gpus := [devGood], cpus := [] }

/-- An environment in which every external call succeeds and one platform
offers a single capable GPU. -/
def envOk : Env :=
  { platforms := [platformG]
    devicesAllocOk := true
    contextAllocOk := true
    contextError := CL_SUCCESS
    contextHandle := 1
    queueAllocOk := true
    queueError := CL_SUCCESS
    queueHandle := 2
    enqueueKernelError := CL_SUCCESS
    kernelEvent := 7
    readError := CL_SUCCESS
    readEvent := 8
    writeError := CL_SUCCESS
    writeEvent := 9
    bufferError := CL_SUCCESS
    programError := CL_SUCCESS
    buildError := CL_SUCCESS
    waitResult := fun _ => CL_SUCCESS
    profStartError := fun _ => CL_SUCCESS
    profEndError := fun _ => CL_SUCCESS
    profStartVal := fun _ => 0
    profEndVal := fun _ => 0 }

/-- Like `envOk` but with no platform at all: the device search fails. -/
def envNoDev : Env := { envOk with platforms := [] }

/-- A wrapper state in which all three lazy members exist. -/
def stReady : OpenCLState :=
  { mEvent := 0
    mDevice := 0
    mContext := some 1
    mBuildOptions := ""
    mQueue := some 2
    mTargetDevice := CL_DEVICE_TYPE_ALL
    mDevices := some [devGood] }

end OpenCLWrapper

namespace Driver

open OpenCLWrapper

/-! ## The driver program (OpenCL.hpp lines 820-959)

`main` parses an XML configuration with three XPath string queries and
either prints the usage line, exits with a negative status code, or hits
the final `assert(false)`.  `DriverInput` supplies the results of the
external libxml2 / `stat` calls: each `Option String` is the `stringval`
obtained for an XPath query (`none` when the query yields no usable string
object), and since `string()` of an absent attribute is the empty string,
a missing attribute appears as `some ""` or `none`. -/

structure DriverInput where
  argc : Nat
  xmlReadOk : Bool
  xpathCtxOk : Bool
  fileAttr : Option String
  fileExists : Bool
  nameAttr : Option String
  typeAttr : Option String

/-- How `main` terminates: printing usage and returning 0, returning a
status code, or failing the final `assert(false)` (the recorded value is
`Kernel.Target` at the assertion point). -/
inductive DriverResult where
  | usage : DriverResult
  | exit : Int → DriverResult
  | assertFailure : Nat → DriverResult
deriving DecidableEq

def DriverResult.isAssertFailure : DriverResult → Bool
  | DriverResult.assertFailure _ => true
  | _ => false

/-- The guarded assignment pattern `if (XmlObject != 0 && ... &&
stringval[0] != 0) Kernel.X = stringval;` applied to a `KernelDef` field
initialized to `""`: the field stays `""` exactly when the query gave no
nonempty string. -/
def readAttr : Option String → String
  | none => ""
  | some s => if s = "" then "" else s

/-- Lines 937-948: map `/kernel/target/@type` onto a `cl_device_type`,
starting from the initializer `Kernel.Target = CL_DEVICE_TYPE_ALL`. -/
def parseTarget (typeAttr : Option String) : Nat :=
  match typeAttr with
  | none => CL_DEVICE_TYPE_ALL
  | some t =>
    if t = "" then CL_DEVICE_TYPE_ALL
    else if t = "cpu" then CL_DEVICE_TYPE_CPU
    else if t = "gpu" then CL_DEVICE_TYPE_GPU
    else if t = "accelerator" then CL_DEVICE_TYPE_ACCELERATOR
    else CL_DEVICE_TYPE_ALL

/-- `main` (OpenCL.hpp lines 844-959). -/
def main (inp : DriverInput) : DriverResult :=
  if inp.argc ≠ 2 then DriverResult.usage
  else if inp.xmlReadOk = false then DriverResult.exit (-1)
  else if inp.xpathCtxOk = false then DriverResult.exit (-2)
  else if readAttr inp.fileAttr = "" then DriverResult.exit (-3)
  else if inp.fileExists = false then DriverResult.exit (-3)
  else if readAttr inp.nameAttr = "" then DriverResult.exit (-3)
  else DriverResult.assertFailure (parseTarget inp.typeAttr)

end Driver

/-! # Lemmas about the grid-size search -/

namespace OpenCLWrapper

/-- Anything `findLocal` returns is a divisor bundle: the remainder test
passed, the quotient is the truncated quotient, the found value lies in
`[1, n]`, and no value strictly above it up to `n` passes the test. -/
theorem findLocal_spec :
    ∀ (n : Nat) (Size d q : Int), findLocal Size n = some (d, q) →
      Size.tmod d = 0 ∧ q = Size.tdiv d ∧ 1 ≤ d ∧ d ≤ (n : Int) ∧
      ∀ e : Int, d < e → e ≤ (n : Int) → Size.tmod e ≠ 0 := by
  intro n
  induction n with
  | zero =>
    intro Size d q h
    simp [findLocal] at h
  | succ n ih =>
    intro Size d q h
    unfold findLocal at h
    by_cases h0 : Size.tmod ((n : Int) + 1) = 0
    · rw [if_pos h0] at h
      simp only [Option.some.injEq, Prod.mk.injEq] at h
      obtain ⟨hd, hq⟩ := h
      subst hd
      subst hq
      refine ⟨h0, rfl, by omega, by push_cast; omega, ?_⟩
      intro e he1 he2
      push_cast at he2
      omega
    · rw [if_neg h0] at h
      obtain ⟨h1, h2, h3, h4, h5⟩ := ih Size d q h
      refine ⟨h1, h2, h3, by push_cast; omega, ?_⟩
      intro e he1 he2
      push_cast at he2
      by_cases he : e = (n : Int) + 1
      · rw [he]
        exact h0
      · exact h5 e he1 (by omega)

/-- The descending search with a positive bound never fails: 1 always
passes the remainder test. -/
theorem findLocal_total :
    ∀ (Size : Int) (n : Nat), ∃ r, findLocal Size (n + 1) = some r := by
  intro Size n
  induction n with
  | zero =>
    refine ⟨(((0 : Nat) : Int) + 1, Size.tdiv (((0 : Nat) : Int) + 1)), ?_⟩
    unfold findLocal
    rw [if_pos (by simp)]
  | succ n ih =>
    by_cases h : Size.tmod ((((n + 1 : Nat)) : Int) + 1) = 0
    · exact ⟨_, by unfold findLocal; rw [if_pos h]⟩
    · obtain ⟨r, hr⟩ := ih
      exact ⟨r, by unfold findLocal; rw [if_neg h]; exact hr⟩

/-- Claim C1: for every problem size strictly greater than 512,
`GetGridSize` sets `LocalSize` to the two-dimensional range
`(d, Size / d)` where `d` is the largest divisor of `Size` with
`1 ≤ d ≤ 512` (such a `d` always exists since 1 divides `Size`, so the
search loop always assigns `LocalSize`). -/
theorem getGridSize_large_picks_largest_divisor
    (l0 g0 : NDRange) (Size : Int) (h : 512 < Size) :
    ∃ d : Int, d ∣ Size ∧ 1 ≤ d ∧ d ≤ 512 ∧
      (∀ e : Int, 1 ≤ e → e ≤ 512 → e ∣ Size → e ≤ d) ∧
      (GetGridSize l0 g0 Size).1 = NDRange.two d (Size.tdiv d) := by
  obtain ⟨⟨d, q⟩, hf⟩ := findLocal_total Size 511
  have hf512 : findLocal Size 512 = some (d, q) := hf
  obtain ⟨h1, h2, h3, h4, h5⟩ := findLocal_spec 512 Size d q hf512
  refine ⟨d, Int.dvd_of_tmod_eq_zero h1, h3, by exact_mod_cast h4, ?_, ?_⟩
  · intro e he1 he2 hdvd
    by_contra hlt
    push_neg at hlt
    exact h5 e hlt (by exact_mod_cast he2) (Int.tmod_eq_zero_of_dvd hdvd)
  · simp only [GetGridSize]
    rw [if_neg (by omega), hf512, h2]

/-- Witness for C1 at the concrete size 1024 (largest divisor not above
512 exists; here the theorem yields the pair the code computes). -/
theorem getGridSize_large_picks_largest_divisor_witness :
    (512 : Int) < 1024 ∧
    ∃ d : Int, d ∣ 1024 ∧ 1 ≤ d ∧ d ≤ 512 ∧
      (∀ e : Int, 1 ≤ e → e ≤ 512 → e ∣ 1024 → e ≤ d) ∧
      (GetGridSize NDRange.null NDRange.null 1024).1 =
        NDRange.two d (Int.tdiv 1024 d) :=
  ⟨by decide,
   getGridSize_large_picks_largest_divisor NDRange.null NDRange.null 1024
     (by decide)⟩

/-- Claim C5: for every problem size at most 512, `GetGridSize` falls back
to the one-dimensional local size `min 512 Size`, and for every size the
global size is the one-dimensional range `Size`. -/
theorem getGridSize_small_local_and_global
    (l0 g0 : NDRange) (Size : Int) :
    (Size ≤ 512 → (GetGridSize l0 g0 Size).1 = NDRange.one (min 512 Size)) ∧
    (GetGridSize l0 g0 Size).2 = NDRange.one Size := by
  constructor
  · intro h
    simp only [GetGridSize]
    rw [if_pos h]
  · simp only [GetGridSize]

/-- Witness for C5 at the concrete size 7. -/
theorem getGridSize_small_local_and_global_witness :
    ((7 : Int) ≤ 512 ∧
      (GetGridSize NDRange.null NDRange.null 7).1 =
        NDRange.one (min 512 7)) ∧
    (GetGridSize NDRange.null NDRange.null 7).2 = NDRange.one 7 :=
  ⟨⟨by decide,
    (getGridSize_small_local_and_global NDRange.null NDRange.null 7).1
      (by decide)⟩,
   (getGridSize_small_local_and_global NDRange.null NDRange.null 7).2⟩

end OpenCLWrapper

/-! # Lemmas about the device search -/

namespace OpenCLWrapper

theorem browseClass_eq_firstHit (sel : Platform → List Device) :
    ∀ ps : List Platform, browseClass sel ps = firstHit (ps.map sel) := by
  intro ps
  induction ps with
  | nil => rfl
  | cons p rest ih =>
    simp only [browseClass, List.map_cons, firstHit]
    cases findCapable (sel p) with
    | none => exact ih
    | some j => rfl

theorem firstHit_append (a b : List (List Device)) :
    firstHit (a ++ b) =
      match firstHit a with
      | some r => some r
      | none => firstHit b := by
  induction a with
  | nil => rfl
  | cons devs rest ih =>
    simp only [List.cons_append, firstHit]
    cases findCapable devs with
    | none => exact ih
    | some j => rfl

/-- The three-stage guarded browse of `InitializeDevices` equals one
search through the flattened, ordered candidate lists. -/
theorem searchDevice_eq_firstHit (env : Env) (target : Nat) :
    searchDevice env target =
      firstHit (classSearchOrder target env.platforms) := by
  unfold searchDevice classSearchOrder
  rw [firstHit_append, firstHit_append]
  have hclass : ∀ sel : Platform → List Device, ∀ b : Bool,
      (if b then browseClass sel env.platforms else none) =
        firstHit (if b then env.platforms.map sel else []) := by
    intro sel b
    cases b with
    | false => rfl
    | true => simpa using browseClass_eq_firstHit sel env.platforms
  rw [hclass (fun p => p.accelerators) _, hclass (fun p => p.gpus) _,
      hclass (fun p => p.cpus) _]
  generalize firstHit (if permits target CL_DEVICE_TYPE_ACCELERATOR = true
    then List.map (fun p => p.accelerators) env.platforms else []) = A
  generalize firstHit (if permits target CL_DEVICE_TYPE_GPU = true
    then List.map (fun p => p.gpus) env.platforms else []) = B
  cases A <;> cases B <;> rfl

/-- Claim C2: with the vector allocation succeeding, `InitializeDevices`
searches accelerators, then GPUs, then CPUs (each class only when the
target device type permits it), selects the first available and
compiler-capable device of this ordered search, records its index into
`mDevice` (and the fetched list into `mDevices`) and returns `CL_SUCCESS`;
when the whole search misses it returns `CL_DEVICE_NOT_FOUND`. -/
theorem initializeDevices_search_order (env : Env) (s : OpenCLState)
    (halloc : env.devicesAllocOk = true) :
    InitializeDevices env s =
      match firstHit (classSearchOrder s.mTargetDevice env.platforms) with
      | some (j, devs) =>
        (CL_SUCCESS, { s with mDevice := j, mDevices := some devs })
      | none => (CL_DEVICE_NOT_FOUND, { s with mDevices := none }) := by
  unfold InitializeDevices
  rw [halloc, searchDevice_eq_firstHit]
  simp

/-- Witness for C2: one platform whose only capable device is its single
GPU; the search selects it at index 0 and returns `CL_SUCCESS`. -/
theorem initializeDevices_search_order_witness :
    InitializeDevices envOk OpenCLNew =
      (CL_SUCCESS,
       { OpenCLNew with mDevice := 0, mDevices := some [devGood] }) :=
  (initializeDevices_search_order envOk OpenCLNew rfl).trans (by rfl)

end OpenCLWrapper

/-! # SetParameter -/

namespace OpenCLWrapper

/-- Claim C9: `SetParameter` with the `TargetDevice` parameter succeeds
(returning `CL_SUCCESS` and storing the value) exactly when the device
list is still uninitialized and the value is `CL_DEVICE_TYPE_ALL` or at
most the bitwise-or of the default, CPU, GPU and accelerator type bits;
otherwise it returns `CL_INVALID_OPERATION` and leaves the whole state,
in particular the stored target device type, unchanged. -/
theorem setParameter_targetDevice_spec (s : OpenCLState) (v : Nat) :
    SetParameterNum s OpenCLParameters.TargetDevice v =
      if s.mDevices = none ∧
          (v = CL_DEVICE_TYPE_ALL ∨
           v ≤ (CL_DEVICE_TYPE_DEFAULT ||| CL_DEVICE_TYPE_CPU |||
                CL_DEVICE_TYPE_GPU ||| CL_DEVICE_TYPE_ACCELERATOR)) then
        (CL_SUCCESS, { s with mTargetDevice := v })
      else
        (CL_INVALID_OPERATION, s) := by
  by_cases h1 : s.mDevices = none <;>
    by_cases h2 : v = CL_DEVICE_TYPE_ALL ∨
        v ≤ (CL_DEVICE_TYPE_DEFAULT ||| CL_DEVICE_TYPE_CPU |||
             CL_DEVICE_TYPE_GPU ||| CL_DEVICE_TYPE_ACCELERATOR) <;>
    simp [SetParameterNum, h1, h2]

end OpenCLWrapper

/-! # The driver's target-type mapping -/

namespace Driver

open OpenCLWrapper

/-- Claim C8: the driver maps the `/kernel/target/@type` value `cpu` to
the CPU device type, `gpu` to the GPU device type and `accelerator` to
the accelerator device type; when the attribute is absent or empty, or
holds any other value, the target keeps the all-devices default. -/
theorem parseTarget_mapping :
    parseTarget (some "cpu") = CL_DEVICE_TYPE_CPU ∧
    parseTarget (some "gpu") = CL_DEVICE_TYPE_GPU ∧
    parseTarget (some "accelerator") = CL_DEVICE_TYPE_ACCELERATOR ∧
    parseTarget none = CL_DEVICE_TYPE_ALL ∧
    parseTarget (some "") = CL_DEVICE_TYPE_ALL ∧
    (∀ t : String, t ≠ "cpu" → t ≠ "gpu" → t ≠ "accelerator" →
      parseTarget (some t) = CL_DEVICE_TYPE_ALL) := by
  refine ⟨by decide, by decide, by decide, rfl, by decide, ?_⟩
  intro t h1 h2 h3
  by_cases h0 : t = ""
  · simp [parseTarget, h0]
  · simp [parseTarget, h0, h1, h2, h3]

/-- Witness for C8: an unrecognized type value leaves the all-devices
default. -/
theorem parseTarget_mapping_witness :
    parseTarget (some "fpga") = CL_DEVICE_TYPE_ALL :=
  parseTarget_mapping.2.2.2.2.2 "fpga" (by decide) (by decide) (by decide)

end Driver

/-! # The driver's end states -/

namespace Driver

open OpenCLWrapper

/-- Claim C4: with the config-file argument present, every malformed
configuration makes the driver exit with a negative status code: -1 when
the file cannot be read as XML, -2 when the XPath context cannot be
created, and -3 when the kernel file attribute is missing (the `string()`
of an absent attribute is empty), when the named kernel file does not
exist, or when the kernel name attribute is missing. -/
theorem main_error_codes (inp : DriverInput) (hargc : inp.argc = 2) :
    (inp.xmlReadOk = false → main inp = DriverResult.exit (-1)) ∧
    (inp.xmlReadOk = true → inp.xpathCtxOk = false →
      main inp = DriverResult.exit (-2)) ∧
    (inp.xmlReadOk = true → inp.xpathCtxOk = true →
      (readAttr inp.fileAttr = "" ∨ inp.fileExists = false ∨
       readAttr inp.nameAttr = "") →
      main inp = DriverResult.exit (-3)) := by
  refine ⟨?_, ?_, ?_⟩
  · intro hxml
    simp [main, hargc, hxml]
  · intro hxml hctx
    simp [main, hargc, hxml, hctx]
  · intro hxml hctx hbad
    by_cases hf : readAttr inp.fileAttr = ""
    · simp [main, hargc, hxml, hctx, hf]
    · by_cases he : inp.fileExists = false
      · simp [main, hargc, hxml, hctx, hf, he]
      · have hn : readAttr inp.nameAttr = "" := by tauto
        have he' : inp.fileExists = true := by
          cases h : inp.fileExists
          · exact absurd h he
          · rfl
        simp [main, hargc, hxml, hctx, hf, he', hn]

/-- Witness for C4: three concrete malformed configurations, one per
status code. -/
theorem main_error_codes_witness :
    main { argc := 2, xmlReadOk := false, xpathCtxOk := false,
           fileAttr := none, fileExists := false, nameAttr := none,
           typeAttr := none } = DriverResult.exit (-1) ∧
    main { argc := 2, xmlReadOk := true, xpathCtxOk := false,
           fileAttr := none, fileExists := false, nameAttr := none,
           typeAttr := none } = DriverResult.exit (-2) ∧
    main { argc := 2, xmlReadOk := true, xpathCtxOk := true,
           fileAttr := some "k.cl", fileExists := true, nameAttr := none,
           typeAttr := none } = DriverResult.exit (-3) :=
  ⟨(main_error_codes _ rfl).1 rfl,
   (main_error_codes _ rfl).2.1 rfl rfl,
   (main_error_codes _ rfl).2.2 rfl rfl (Or.inr (Or.inr (by decide)))⟩

/-- Counterexample to claim C3 as stated: an invocation whose
configuration file cannot be read ends with exit status -1, which is not
an assertion failure (and with a wrong argument count the driver prints
usage and returns 0); so the assertion failure is not the only reachable
end state over all invocations. -/
theorem main_reaches_non_assert_end_state :
    main { argc := 2, xmlReadOk := false, xpathCtxOk := false,
           fileAttr := none, fileExists := false, nameAttr := none,
           typeAttr := none } = DriverResult.exit (-1) ∧
    (main { argc := 2, xmlReadOk := false, xpathCtxOk := false,
            fileAttr := none, fileExists := false, nameAttr := none,
            typeAttr := none }).isAssertFailure = false ∧
    main { argc := 1, xmlReadOk := true, xpathCtxOk := true,
           fileAttr := some "k.cl", fileExists := true,
           nameAttr := some "k", typeAttr := none } =
      DriverResult.usage ∧
    (main { argc := 1, xmlReadOk := true, xpathCtxOk := true,
            fileAttr := some "k.cl", fileExists := true,
            nameAttr := some "k", typeAttr := none }).isAssertFailure =
      false := ⟨rfl, rfl, by decide, by decide⟩

/-- Claim C3 amended: after successfully reading the configuration (the
argument is present, the XML parses, the XPath context is created, the
kernel file attribute is present and the file exists, and the kernel name
attribute is present) the driver unconditionally aborts in the
`assert(false)` stub; every other invocation ends by printing usage
(returning 0) or returning one of the negative status codes -1, -2, -3,
so no invocation ever runs a kernel or returns success past the stub. -/
theorem main_asserts_after_config_read (inp : DriverInput) :
    (inp.argc = 2 → inp.xmlReadOk = true → inp.xpathCtxOk = true →
      readAttr inp.fileAttr ≠ "" → inp.fileExists = true →
      readAttr inp.nameAttr ≠ "" →
      main inp = DriverResult.assertFailure (parseTarget inp.typeAttr)) ∧
    (main inp = DriverResult.usage ∨
     main inp = DriverResult.exit (-1) ∨
     main inp = DriverResult.exit (-2) ∨
     main inp = DriverResult.exit (-3) ∨
     main inp = DriverResult.assertFailure (parseTarget inp.typeAttr)) := by
  constructor
  · intro h1 h2 h3 h4 h5 h6
    simp [main, h1, h2, h3, h4, h5, h6]
  · by_cases h1 : inp.argc = 2
    · by_cases h2 : inp.xmlReadOk = true
      · by_cases h3 : inp.xpathCtxOk = true
        · by_cases h4 : readAttr inp.fileAttr = ""
          · simp [main, h1, h2, h3, h4]
          · by_cases h5 : inp.fileExists = true
            · by_cases h6 : readAttr inp.nameAttr = ""
              · simp [main, h1, h2, h3, h4, h5, h6]
              · simp [main, h1, h2, h3, h4, h5, h6]
            · have h5' : inp.fileExists = false := by
                cases h : inp.fileExists
                · rfl
                · exact absurd h h5
              simp [main, h1, h2, h3, h4, h5']
        · have h3' : inp.xpathCtxOk = false := by
            cases h : inp.xpathCtxOk
            · rfl
            · exact absurd h h3
          simp [main, h1, h2, h3']
      · have h2' : inp.xmlReadOk = false := by
          cases h : inp.xmlReadOk
          · rfl
          · exact absurd h h2
        simp [main, h1, h2']
    · simp [main, h1]

/-- Witness for the amended C3 at a fully well-formed configuration. -/
theorem main_asserts_after_config_read_witness :
    main { argc := 2, xmlReadOk := true, xpathCtxOk := true,
           fileAttr := some "k.cl", fileExists := true,
           nameAttr := some "k", typeAttr := some "cpu" } =
      DriverResult.assertFailure (parseTarget (some "cpu")) :=
  (main_asserts_after_config_read _).1 rfl rfl rfl (by decide) rfl
    (by decide)

end Driver


/-! # Lemmas about the lazy initialization steps -/

namespace OpenCLWrapper

theorem runInit_some {α : Type} (member : OpenCLState → Option α)
    (f : OpenCLState → Int × OpenCLState) (s : OpenCLState) (x : α)
    (h : member s = some x) : runInit member f s = Except.ok s := by
  simp [runInit, h]

theorem initializeDevices_frame (env : Env) (s : OpenCLState) :
    (InitializeDevices env s).2.mContext = s.mContext ∧
    (InitializeDevices env s).2.mQueue = s.mQueue := by
  unfold InitializeDevices
  by_cases h : env.devicesAllocOk = false
  · rw [if_pos h]
    exact ⟨rfl, rfl⟩
  · rw [if_neg h]
    cases searchDevice env s.mTargetDevice with
    | none => exact ⟨rfl, rfl⟩
    | some r =>
      cases r with
      | mk j devs => exact ⟨rfl, rfl⟩

theorem runInitDevices_ok (env : Env) (s s1 : OpenCLState)
    (h : runInitDevices env s = Except.ok s1) :
    s1.mContext = s.mContext ∧ s1.mQueue = s.mQueue ∧
    (∀ d, s.mDevices = some d → s1 = s) := by
  cases hd : s.mDevices with
  | some d =>
    simp [runInitDevices, runInit, hd] at h
    subst h
    exact ⟨rfl, rfl, fun _ _ => rfl⟩
  | none =>
    simp only [runInitDevices, runInit, hd] at h
    by_cases hsucc : (InitializeDevices env s).1 = CL_SUCCESS
    · rw [if_pos hsucc] at h
      simp only [Except.ok.injEq] at h
      subst h
      obtain ⟨hc, hq⟩ := initializeDevices_frame env s
      exact ⟨hc, hq, fun d hd' => by simp [hd] at hd'⟩
    · rw [if_neg hsucc] at h
      simp at h

theorem runInitDevices_error (env : Env) (s : OpenCLState)
    (r : Int × OpenCLState) (h : runInitDevices env s = Except.error r) :
    r.2.mContext = s.mContext ∧ r.2.mQueue = s.mQueue ∧
    s.mDevices = none := by
  cases hd : s.mDevices with
  | some d => simp [runInitDevices, runInit, hd] at h
  | none =>
    simp only [runInitDevices, runInit, hd] at h
    by_cases hsucc : (InitializeDevices env s).1 = CL_SUCCESS
    · rw [if_pos hsucc] at h
      simp at h
    · rw [if_neg hsucc] at h
      simp only [Except.error.injEq] at h
      subst h
      obtain ⟨hc, hq⟩ := initializeDevices_frame env s
      exact ⟨hc, hq, rfl⟩

theorem initializeContext_facts (env : Env) (s : OpenCLState) :
    (InitializeContext env s).2.mQueue = s.mQueue ∧
    (∀ d, s.mDevices = some d →
      (InitializeContext env s).2.mDevices = some d) := by
  unfold InitializeContext
  constructor
  · split
    · rename_i r heq
      exact (runInitDevices_error env s r heq).2.1
    · rename_i s1 heq
      obtain ⟨hc, hq, hsome⟩ := runInitDevices_ok env s s1 heq
      by_cases hca : env.contextAllocOk = false
      · rw [if_pos hca]
        simpa using hq
      · rw [if_neg hca]
        by_cases hce : env.contextError ≠ CL_SUCCESS
        · rw [if_pos hce]
          simpa using hq
        · rw [if_neg hce]
          simpa using hq
  · intro d h
    split
    · rename_i r heq
      have := (runInitDevices_error env s r heq).2.2
      simp [this] at h
    · rename_i s1 heq
      obtain ⟨hc, hq, hsome⟩ := runInitDevices_ok env s s1 heq
      have hs1 : s1 = s := hsome d h
      subst hs1
      by_cases hca : env.contextAllocOk = false
      · rw [if_pos hca]
        simpa using h
      · rw [if_neg hca]
        by_cases hce : env.contextError ≠ CL_SUCCESS
        · rw [if_pos hce]
          simpa using h
        · rw [if_neg hce]
          simpa using h

theorem runInitContext_ok (env : Env) (s s1 : OpenCLState)
    (h : runInitContext env s = Except.ok s1) :
    s1.mQueue = s.mQueue ∧
    (∀ d, s.mDevices = some d → s1.mDevices = some d) ∧
    (∀ c, s.mContext = some c → s1 = s) := by
  cases hc : s.mContext with
  | some c =>
    simp [runInitContext, runInit, hc] at h
    subst h
    exact ⟨rfl, fun _ h => h, fun _ _ => rfl⟩
  | none =>
    simp only [runInitContext, runInit, hc] at h
    by_cases hsucc : (InitializeContext env s).1 = CL_SUCCESS
    · rw [if_pos hsucc] at h
      simp only [Except.ok.injEq] at h
      subst h
      obtain ⟨hq, hd⟩ := initializeContext_facts env s
      exact ⟨hq, hd, fun c hc' => by simp [hc] at hc'⟩
    · rw [if_neg hsucc] at h
      simp at h

theorem runInitContext_error (env : Env) (s : OpenCLState)
    (r : Int × OpenCLState) (h : runInitContext env s = Except.error r) :
    r.2.mQueue = s.mQueue ∧
    (∀ d, s.mDevices = some d → r.2.mDevices = some d) ∧
    s.mContext = none := by
  cases hc : s.mContext with
  | some c => simp [runInitContext, runInit, hc] at h
  | none =>
    simp only [runInitContext, runInit, hc] at h
    by_cases hsucc : (InitializeContext env s).1 = CL_SUCCESS
    · rw [if_pos hsucc] at h
      simp at h
    · rw [if_neg hsucc] at h
      simp only [Except.error.injEq] at h
      subst h
      obtain ⟨hq, hd⟩ := initializeContext_facts env s
      exact ⟨hq, hd, rfl⟩

theorem initializeQueue_facts (env : Env) (s : OpenCLState) :
    (∀ d, s.mDevices = some d →
      (InitializeQueue env s).2.mDevices = some d) ∧
    (∀ c, s.mContext = some c →
      (InitializeQueue env s).2.mContext = some c) := by
  unfold InitializeQueue
  constructor
  · intro d h
    split
    · rename_i r heq
      exact (runInitContext_error env s r heq).2.1 d h
    · rename_i s1 heq
      obtain ⟨hq, hd, hsome⟩ := runInitContext_ok env s s1 heq
      have hd1 := hd d h
      by_cases hqa : env.queueAllocOk = false
      · rw [if_pos hqa]
        simpa using hd1
      · rw [if_neg hqa]
        by_cases hqe : env.queueError ≠ CL_SUCCESS
        · rw [if_pos hqe]
          simpa using hd1
        · rw [if_neg hqe]
          simpa using hd1
  · intro c h
    split
    · rename_i r heq
      have := (runInitContext_error env s r heq).2.2
      simp [this] at h
    · rename_i s1 heq
      obtain ⟨hq, hd, hsome⟩ := runInitContext_ok env s s1 heq
      have hs1 : s1 = s := hsome c h
      subst hs1
      by_cases hqa : env.queueAllocOk = false
      · rw [if_pos hqa]
        simpa using h
      · rw [if_neg hqa]
        by_cases hqe : env.queueError ≠ CL_SUCCESS
        · rw [if_pos hqe]
          simpa using h
        · rw [if_neg hqe]
          simpa using h

theorem runInitQueue_ok (env : Env) (s s1 : OpenCLState)
    (h : runInitQueue env s = Except.ok s1) :
    (∀ d, s.mDevices = some d → s1.mDevices = some d) ∧
    (∀ c, s.mContext = some c → s1.mContext = some c) ∧
    (∀ q, s.mQueue = some q → s1 = s) := by
  cases hq : s.mQueue with
  | some q =>
    simp [runInitQueue, runInit, hq] at h
    subst h
    exact ⟨fun _ h => h, fun _ h => h, fun _ _ => rfl⟩
  | none =>
    simp only [runInitQueue, runInit, hq] at h
    by_cases hsucc : (InitializeQueue env s).1 = CL_SUCCESS
    · rw [if_pos hsucc] at h
      simp only [Except.ok.injEq] at h
      subst h
      obtain ⟨hd, hc⟩ := initializeQueue_facts env s
      exact ⟨hd, hc, fun q hq' => by simp [hq] at hq'⟩
    · rw [if_neg hsucc] at h
      simp at h

theorem runInitQueue_error (env : Env) (s : OpenCLState)
    (r : Int × OpenCLState) (h : runInitQueue env s = Except.error r) :
    (∀ d, s.mDevices = some d → r.2.mDevices = some d) ∧
    (∀ c, s.mContext = some c → r.2.mContext = some c) ∧
    s.mQueue = none := by
  cases hq : s.mQueue with
  | some q => simp [runInitQueue, runInit, hq] at h
  | none =>
    simp only [runInitQueue, runInit, hq] at h
    by_cases hsucc : (InitializeQueue env s).1 = CL_SUCCESS
    · rw [if_pos hsucc] at h
      simp at h
    · rw [if_neg hsucc] at h
      simp only [Except.error.injEq] at h
      subst h
      obtain ⟨hd, hc⟩ := initializeQueue_facts env s
      exact ⟨hd, hc, rfl⟩

end OpenCLWrapper

namespace OpenCLWrapper

theorem setParameterNum_state (s : OpenCLState) (p : OpenCLParameters)
    (v : Nat) :
    (SetParameterNum s p v).2.mDevices = s.mDevices ∧
    (SetParameterNum s p v).2.mContext = s.mContext ∧
    (SetParameterNum s p v).2.mQueue = s.mQueue := by
  unfold SetParameterNum
  cases p with
  | TargetDevice => split_ifs <;> exact ⟨rfl, rfl, rfl⟩
  | BuildOptions => exact ⟨rfl, rfl, rfl⟩
  | MaxParameters => exact ⟨rfl, rfl, rfl⟩

theorem setParameterStr_state (s : OpenCLState) (p : OpenCLParameters)
    (str : String) :
    (SetParameterStr s p str).2.mDevices = s.mDevices ∧
    (SetParameterStr s p str).2.mContext = s.mContext ∧
    (SetParameterStr s p str).2.mQueue = s.mQueue := by
  unfold SetParameterStr
  cases p with
  | TargetDevice => exact ⟨rfl, rfl, rfl⟩
  | BuildOptions => exact ⟨rfl, rfl, rfl⟩
  | MaxParameters => exact ⟨rfl, rfl, rfl⟩

/-- Claim C10: whenever an initialization step returns a non-success
code, the member it was creating is null afterwards (`InitializeContext`
and `InitializeQueue` are only ever entered through `INIT`, i.e. with
their member still null). -/
theorem init_failure_leaves_member_null (env : Env) (s : OpenCLState) :
    ((InitializeDevices env s).1 ≠ CL_SUCCESS →
      (InitializeDevices env s).2.mDevices = none) ∧
    (s.mContext = none → (InitializeContext env s).1 ≠ CL_SUCCESS →
      (InitializeContext env s).2.mContext = none) ∧
    (s.mQueue = none → (InitializeQueue env s).1 ≠ CL_SUCCESS →
      (InitializeQueue env s).2.mQueue = none) := by
  refine ⟨?_, ?_, ?_⟩
  · intro h
    unfold InitializeDevices at h ⊢
    by_cases ha : env.devicesAllocOk = false
    · simp [ha]
    · rw [if_neg ha] at h ⊢
      cases hs : searchDevice env s.mTargetDevice with
      | none => simp [hs]
      | some r =>
        rw [hs] at h
        obtain ⟨j, devs⟩ := r
        simp at h
  · intro hc h
    unfold InitializeContext at h ⊢
    cases hr : runInitDevices env s with
    | error r =>
      have hfr := (runInitDevices_error env s r hr).1
      simp [hfr, hc]
    | ok s1 =>
      by_cases hca : env.contextAllocOk = false
      · simp [hca]
      · by_cases hce : env.contextError ≠ CL_SUCCESS
        · simp [hca, hce]
        · have hce' : env.contextError = CL_SUCCESS := not_not.mp hce
          rw [hr] at h
          simp [hca, hce'] at h
  · intro hq h
    unfold InitializeQueue at h ⊢
    cases hr : runInitContext env s with
    | error r =>
      have hfr := (runInitContext_error env s r hr).1
      simp [hfr, hq]
    | ok s1 =>
      by_cases hqa : env.queueAllocOk = false
      · simp [hqa]
      · by_cases hqe : env.queueError ≠ CL_SUCCESS
        · simp [hqa, hqe]
        · have hqe' : env.queueError = CL_SUCCESS := not_not.mp hqe
          rw [hr] at h
          simp [hqa, hqe'] at h

/-- Witness for C10: with no platform at all, the device search fails and
leaves the device list null. -/
theorem init_failure_leaves_member_null_witness :
    (InitializeDevices envNoDev OpenCLNew).1 ≠ CL_SUCCESS ∧
    (InitializeDevices envNoDev OpenCLNew).2.mDevices = none := by
  have h : (InitializeDevices envNoDev OpenCLNew).1 ≠ CL_SUCCESS := by decide
  exact ⟨h, (init_failure_leaves_member_null envNoDev OpenCLNew).1 h⟩

end OpenCLWrapper

namespace OpenCLWrapper

/-- Claim C6: the device list, context and command queue are created
lazily exactly once: every public operation initializes a member only when
it is still null, and a member that is non-null before any public
operation is still the very same afterwards (nothing replaces or
re-creates it until destruction). -/
theorem lazy_members_created_once (env : Env) (s : OpenCLState)
    (ds : Int) (sz sz2 sz3 : Nat) (src : String)
    (p : OpenCLParameters) (v : Nat) (str : String) :
    memPreserved s (ExecuteKernelFromKernelEx env s ds).2 ∧
    memPreserved s (ReadBuffer env s sz).2 ∧
    memPreserved s (WriteBuffer env s sz2).2 ∧
    memPreserved s (AllocateBuffer env s sz3).2 ∧
    memPreserved s (GetProgramFromSource env s src).2 ∧
    memPreserved s (GetUsedDevice env s).2.1 ∧
    memPreserved s (SetParameterNum s p v).2 ∧
    memPreserved s (SetParameterStr s p str).2 := by
  have hExec : memPreserved s (ExecuteKernelFromKernelEx env s ds).2 := by
    unfold ExecuteKernelFromKernelEx
    cases hr : runInitQueue env s with
    | error r =>
      obtain ⟨hd, hc, hq⟩ := runInitQueue_error env s r hr
      refine ⟨fun d h => ?_, fun c h => ?_, fun q h => ?_⟩
      · simpa using hd d h
      · simpa using hc c h
      · simp [hq] at h
    | ok s1 =>
      obtain ⟨hd, hc, hq⟩ := runInitQueue_ok env s s1 hr
      by_cases he : env.enqueueKernelError = CL_SUCCESS
      · refine ⟨fun d h => ?_, fun c h => ?_, fun q h => ?_⟩
        · simpa [he] using hd d h
        · simpa [he] using hc c h
        · have hs1 : s1 = s := hq q h
          subst hs1
          simpa [he] using h
      · refine ⟨fun d h => ?_, fun c h => ?_, fun q h => ?_⟩
        · simpa [he] using hd d h
        · simpa [he] using hc c h
        · have hs1 : s1 = s := hq q h
          subst hs1
          simpa [he] using h
  have hRead : memPreserved s (ReadBuffer env s sz).2 := by
    unfold ReadBuffer
    cases hr : runInitQueue env s with
    | error r =>
      obtain ⟨hd, hc, hq⟩ := runInitQueue_error env s r hr
      refine ⟨fun d h => ?_, fun c h => ?_, fun q h => ?_⟩
      · simpa using hd d h
      · simpa using hc c h
      · simp [hq] at h
    | ok s1 =>
      obtain ⟨hd, hc, hq⟩ := runInitQueue_ok env s s1 hr
      by_cases he : env.readError = CL_SUCCESS
      · refine ⟨fun d h => ?_, fun c h => ?_, fun q h => ?_⟩
        · simpa [he] using hd d h
        · simpa [he] using hc c h
        · have hs1 : s1 = s := hq q h
          subst hs1
          simpa [he] using h
      · refine ⟨fun d h => ?_, fun c h => ?_, fun q h => ?_⟩
        · simpa [he] using hd d h
        · simpa [he] using hc c h
        · have hs1 : s1 = s := hq q h
          subst hs1
          simpa [he] using h
  have hWrite : memPreserved s (WriteBuffer env s sz2).2 := by
    unfold WriteBuffer
    cases hr : runInitQueue env s with
    | error r =>
      obtain ⟨hd, hc, hq⟩ := runInitQueue_error env s r hr
      refine ⟨fun d h => ?_, fun c h => ?_, fun q h => ?_⟩
      · simpa using hd d h
      · simpa using hc c h
      · simp [hq] at h
    | ok s1 =>
      obtain ⟨hd, hc, hq⟩ := runInitQueue_ok env s s1 hr
      by_cases he : env.writeError = CL_SUCCESS
      · refine ⟨fun d h => ?_, fun c h => ?_, fun q h => ?_⟩
        · simpa [he] using hd d h
        · simpa [he] using hc c h
        · have hs1 : s1 = s := hq q h
          subst hs1
          simpa [he] using h
      · refine ⟨fun d h => ?_, fun c h => ?_, fun q h => ?_⟩
        · simpa [he] using hd d h
        · simpa [he] using hc c h
        · have hs1 : s1 = s := hq q h
          subst hs1
          simpa [he] using h
  have hAlloc : memPreserved s (AllocateBuffer env s sz3).2 := by
    unfold AllocateBuffer
    cases hr : runInitContext env s with
    | error r =>
      obtain ⟨hq, hd, hc0⟩ := runInitContext_error env s r hr
      refine ⟨fun d h => ?_, fun c h => ?_, fun q h => ?_⟩
      · simpa using hd d h
      · simp [hc0] at h
      · simpa [hq] using h
    | ok s1 =>
      obtain ⟨hq, hd, hsome⟩ := runInitContext_ok env s s1 hr
      refine ⟨fun d h => ?_, fun c h => ?_, fun q h => ?_⟩
      · simpa using hd d h
      · have hs1 : s1 = s := hsome c h
        subst hs1
        simpa using h
      · simpa [hq] using h
  have hProg : memPreserved s (GetProgramFromSource env s src).2 := by
    unfold GetProgramFromSource
    cases hr : runInitContext env s with
    | error r =>
      obtain ⟨hq, hd, hc0⟩ := runInitContext_error env s r hr
      refine ⟨fun d h => ?_, fun c h => ?_, fun q h => ?_⟩
      · simpa using hd d h
      · simp [hc0] at h
      · simpa [hq] using h
    | ok s1 =>
      obtain ⟨hq, hd, hsome⟩ := runInitContext_ok env s s1 hr
      by_cases hp : env.programError ≠ CL_SUCCESS
      · refine ⟨fun d h => ?_, fun c h => ?_, fun q h => ?_⟩
        · simpa [hp] using hd d h
        · have hs1 : s1 = s := hsome c h
          subst hs1
          simpa [hp] using h
        · simpa [hp, hq] using h
      · refine ⟨fun d h => ?_, fun c h => ?_, fun q h => ?_⟩
        · simpa [hp] using hd d h
        · have hs1 : s1 = s := hsome c h
          subst hs1
          simpa [hp] using h
        · simpa [hp, hq] using h
  have hUsed : memPreserved s (GetUsedDevice env s).2.1 := by
    unfold GetUsedDevice
    cases hr : runInitDevices env s with
    | error r =>
      obtain ⟨hc, hq, hd0⟩ := runInitDevices_error env s r hr
      refine ⟨fun d h => ?_, fun c h => ?_, fun q h => ?_⟩
      · simp [hd0] at h
      · simpa [hc] using h
      · simpa [hq] using h
    | ok s1 =>
      obtain ⟨hc, hq, hsome⟩ := runInitDevices_ok env s s1 hr
      refine ⟨fun d h => ?_, fun c h => ?_, fun q h => ?_⟩
      · have hs1 : s1 = s := hsome d h
        subst hs1
        simpa using h
      · simpa [hc] using h
      · simpa [hq] using h
  have hSetN : memPreserved s (SetParameterNum s p v).2 := by
    obtain ⟨h1, h2, h3⟩ := setParameterNum_state s p v
    exact ⟨fun d h => by rw [h1]; exact h, fun c h => by rw [h2]; exact h,
           fun q h => by rw [h3]; exact h⟩
  have hSetS : memPreserved s (SetParameterStr s p str).2 := by
    obtain ⟨h1, h2, h3⟩ := setParameterStr_state s p str
    exact ⟨fun d h => by rw [h1]; exact h, fun c h => by rw [h2]; exact h,
           fun q h => by rw [h3]; exact h⟩
  exact ⟨hExec, hRead, hWrite, hAlloc, hProg, hUsed, hSetN, hSetS⟩

/-- Witness for C6: on a state where all three members exist, enqueueing
a kernel leaves all of them untouched. -/
theorem lazy_members_created_once_witness :
    (ExecuteKernelFromKernelEx envOk stReady 8).2.mDevices =
      some [devGood] ∧
    (ExecuteKernelFromKernelEx envOk stReady 8).2.mContext = some 1 ∧
    (ExecuteKernelFromKernelEx envOk stReady 8).2.mQueue = some 2 := by
  obtain ⟨hex, -⟩ :=
    lazy_members_created_once envOk stReady 8 0 0 0 ""
      OpenCLParameters.TargetDevice 0 ""
  exact ⟨hex.1 [devGood] rfl, hex.2.1 1 rfl, hex.2.2 2 rfl⟩

end OpenCLWrapper

namespace OpenCLWrapper

/-- Claim C7: there is a single stored event; each enqueuing operation
(kernel execution, buffer read, buffer write), whenever it reaches its
enqueue (the queue initialization step returned success) and the enqueue
succeeds, overwrites that one event with the event of this enqueue, and
`WaitForLastEvent` and `GetLastElapsedTime` depend on the state only
through that stored event, so they always refer to the most recently
issued operation. -/
theorem single_event_tracking (env : Env) (s s1 t : OpenCLState)
    (ds : Int) (sz sz2 : Nat) :
    (runInitQueue env s = Except.ok s1 →
      (env.enqueueKernelError = CL_SUCCESS →
        (ExecuteKernelFromKernelEx env s ds).2.mEvent = env.kernelEvent) ∧
      (env.readError = CL_SUCCESS →
        (ReadBuffer env s sz).2.mEvent = env.readEvent) ∧
      (env.writeError = CL_SUCCESS →
        (WriteBuffer env s sz2).2.mEvent = env.writeEvent)) ∧
    (s.mEvent = t.mEvent →
      WaitForLastEvent env s = WaitForLastEvent env t ∧
      GetLastElapsedTime env s = GetLastElapsedTime env t) := by
  constructor
  · intro hq
    refine ⟨?_, ?_, ?_⟩ <;> intro he <;>
      simp [ExecuteKernelFromKernelEx, ReadBuffer, WriteBuffer, hq, he]
  · intro he
    exact ⟨by simp [WaitForLastEvent, he],
           by simp [GetLastElapsedTime, he]⟩

/-- Witness for C7: on a fully initialized state with all enqueues
succeeding, each of the three operations stores its own fresh event. -/
theorem single_event_tracking_witness :
    (ExecuteKernelFromKernelEx envOk stReady 8).2.mEvent =
      envOk.kernelEvent ∧
    (ReadBuffer envOk stReady 4).2.mEvent = envOk.readEvent ∧
    (WriteBuffer envOk stReady 4).2.mEvent = envOk.writeEvent := by
  obtain ⟨h1, -⟩ :=
    single_event_tracking envOk stReady stReady stReady 8 4 4
  exact ⟨(h1 rfl).1 rfl, (h1 rfl).2.1 rfl, (h1 rfl).2.2 rfl⟩

end OpenCLWrapper
